import Mathlib

/-!
Verification of the course-review service of this repository
(Firebase Cloud Functions backend in `functions/index.js` and the
client-side review service), as a shallow embedding in Lean 4.

JavaScript values are embedded as follows: absent (`undefined`/`null`)
fields of the untyped request body become `Option`; JS numbers that the
handlers treat as integers become `Int`; JS truthiness tests (`!x`,
`x ? a : b`, `x || d`) are embedded by the `jsTruthy*` helpers below;
averages computed by the handlers are embedded over `ℚ`.
-/

/-- Truthiness of an optional JS string: `undefined`, `null` and the
empty string are falsy, every other string is truthy. -/
def jsTruthyStr (o : Option String) : Bool := (o.getD "") ≠ ""

/-- Truthiness of an optional JS integer number: `undefined`, `null`
and `0` are falsy, every other integer is truthy. -/
def jsTruthyInt (o : Option Int) : Bool := o.getD 0 ≠ 0

/-- Truthiness of an optional JS boolean: `undefined`, `null` and
`false` are falsy, `true` is truthy. -/
def jsTruthyBool (o : Option Bool) : Bool := o.getD false

/-- Embedding of JS `String.prototype.trim`: drop leading and trailing
whitespace.  Defined over the character list so that it evaluates by
kernel reduction (Lean's own `String.trim` is defined by well-founded
recursion on byte positions and does not). -/
def jsTrim (s : String) : String :=
  String.mk ((s.data.dropWhile Char.isWhitespace).reverse.dropWhile Char.isWhitespace).reverse

/-- The untyped review-submission request body (`reviewData` in
`submitReview` of `functions/index.js` and of the client review
service). Every field may be absent. -/
structure RawSubmission where
  courseCode : Option String := none
  courseName : Option String := none
  collegeCode : Option String := none
  subjectCode : Option String := none
  courseNumber : Option String := none
  rating : Option Int := none
  reviewText : Option String := none
  difficultyRating : Option Int := none
  workloadRating : Option Int := none
  profHelpfulnessRating : Option Int := none
  semesterTaken : Option String := none
  authorName : Option String := none
  authorEmail : Option String := none
  isAnonymous : Option Bool := none
deriving DecidableEq, Repr

/-- Error outcomes of the submission validations.  The first three are
the server handler's three 400 responses in `functions/index.js`
(`courseCode is required`, `rating must be between 1 and 5`,
`reviewText is required and must be at least 20 characters`); the last
is the client service's combined thrown error
(`Missing required fields: courseCode, rating, or reviewText`). -/
inductive SubmitError where
  | missingCourseCode
  | invalidRating
  | invalidReviewText
  | missingRequiredFields
deriving DecidableEq, Repr

/-- Server-side validation of `submitReview` (`functions/index.js`
lines 102-114): `!reviewData.courseCode`, then
`!reviewData.rating || reviewData.rating < 1 || reviewData.rating > 5`,
then `!reviewData.reviewText || reviewData.reviewText.trim().length < 20`.
Returns `none` when the submission is accepted. -/
def validateServer (s : RawSubmission) : Option SubmitError :=
  if ¬ jsTruthyStr s.courseCode then some .missingCourseCode
  else if ¬ jsTruthyInt s.rating ∨ s.rating.getD 0 < 1 ∨ s.rating.getD 0 > 5 then
    some .invalidRating
  else if ¬ jsTruthyStr s.reviewText ∨ (jsTrim (s.reviewText.getD "")).length < 20 then
    some .invalidReviewText
  else none

/-- Client-side validation of `submitReview` in the review service:
`!reviewData.courseCode || !reviewData.rating || !reviewData.reviewText`
(one combined error), then the rating range, then
`reviewData.reviewText.length < 20` on the raw, untrimmed text.
Returns `none` when the submission is accepted. -/
def validateClient (s : RawSubmission) : Option SubmitError :=
  if ¬ jsTruthyStr s.courseCode ∨ ¬ jsTruthyInt s.rating ∨ ¬ jsTruthyStr s.reviewText then
    some .missingRequiredFields
  else if s.rating.getD 0 < 1 ∨ s.rating.getD 0 > 5 then some .invalidRating
  else if (s.reviewText.getD "").length < 20 then some .invalidReviewText
  else none

/-- The persisted review document built by the server handler
(`reviewToSubmit` in `functions/index.js`).  `createdAt`/`updatedAt`
are the server timestamp, embedded as a `Nat` supplied by the store. -/
structure Review where
  courseCode : String
  courseName : String
  collegeCode : String
  subjectCode : String
  courseNumber : String
  rating : Int
  reviewText : String
  difficultyRating : Option Int
  workloadRating : Option Int
  profHelpfulnessRating : Option Int
  semesterTaken : String
  authorEmail : Option String
  isAnonymous : Bool
  authorName : String
  createdAt : Nat
  updatedAt : Nat
  verified : Bool
  helpfulVotes : Nat
  totalVotes : Nat
  reportedCount : Nat
deriving DecidableEq, Repr

/-- The persisted review document built by the client review service
(`reviewToSubmit` in the client `submitReview`).  Unlike the server
version, `authorName` can be the absent JS value, since the client
stores `reviewData.authorName` unchanged when not anonymous. -/
structure ClientReview where
  courseCode : String
  courseName : String
  collegeCode : String
  subjectCode : String
  courseNumber : String
  rating : Int
  reviewText : String
  difficultyRating : Option Int
  workloadRating : Option Int
  profHelpfulnessRating : Option Int
  semesterTaken : String
  authorEmail : Option String
  isAnonymous : Bool
  authorName : Option String
  createdAt : Nat
  updatedAt : Nat
  verified : Bool
  helpfulVotes : Nat
  totalVotes : Nat
  reportedCount : Nat
deriving DecidableEq, Repr

/-- Server-side normalization of an accepted submission into the
persisted document (`functions/index.js` lines 117-160).  JS
`parseInt` on a value that is already an integer number is the
identity, so `parseInt(reviewData.rating)` embeds as the value itself.
Note the three author fields: `authorEmail` and `authorName` branch on
the truthiness of the raw `reviewData.isAnonymous`, while the stored
`isAnonymous` is `reviewData.isAnonymous !== false`. -/
def normalizeServer (s : RawSubmission) (now : Nat) : Review :=
  { courseCode := s.courseCode.getD ""
    courseName := s.courseName.getD ""
    collegeCode := s.collegeCode.getD ""
    subjectCode := s.subjectCode.getD ""
    courseNumber := s.courseNumber.getD ""
    rating := s.rating.getD 0
    reviewText := jsTrim (s.reviewText.getD "")
    difficultyRating :=
      if jsTruthyInt s.difficultyRating then some (s.difficultyRating.getD 0) else none
    workloadRating :=
      if jsTruthyInt s.workloadRating then some (s.workloadRating.getD 0) else none
    profHelpfulnessRating :=
      if jsTruthyInt s.profHelpfulnessRating then some (s.profHelpfulnessRating.getD 0) else none
    semesterTaken := s.semesterTaken.getD ""
    authorEmail :=
      if jsTruthyBool s.isAnonymous ∨ ¬ jsTruthyStr s.authorEmail then none else s.authorEmail
    isAnonymous := s.isAnonymous ≠ some false
    authorName :=
      if jsTruthyBool s.isAnonymous then "Anonymous"
      else if jsTruthyStr s.authorName then s.authorName.getD "" else "Anonymous"
    createdAt := now
    updatedAt := now
    verified := false
    helpfulVotes := 0
    totalVotes := 0
    reportedCount := 0 }

/-- Client-side normalization of an accepted submission
(`reviewToSubmit` in the client `submitReview`).  The review text is
stored untrimmed; `isAnonymous: reviewData.isAnonymous || true` stores
`true` whenever the raw value is falsy, hence always; `authorName` is
stored unchanged (possibly absent) when the raw flag is falsy. -/
def normalizeClient (s : RawSubmission) (now : Nat) : ClientReview :=
  { courseCode := s.courseCode.getD ""
    courseName := s.courseName.getD ""
    collegeCode := s.collegeCode.getD ""
    subjectCode := s.subjectCode.getD ""
    courseNumber := s.courseNumber.getD ""
    rating := s.rating.getD 0
    reviewText := s.reviewText.getD ""
    difficultyRating :=
      if jsTruthyInt s.difficultyRating then s.difficultyRating else none
    workloadRating :=
      if jsTruthyInt s.workloadRating then s.workloadRating else none
    profHelpfulnessRating :=
      if jsTruthyInt s.profHelpfulnessRating then s.profHelpfulnessRating else none
    semesterTaken := s.semesterTaken.getD ""
    authorEmail := if jsTruthyBool s.isAnonymous then none else s.authorEmail
    isAnonymous := if jsTruthyBool s.isAnonymous then s.isAnonymous.getD false else true
    authorName := if jsTruthyBool s.isAnonymous then some "Anonymous" else s.authorName
    createdAt := now
    updatedAt := now
    verified := false
    helpfulVotes := 0
    totalVotes := 0
    reportedCount := 0 }

/-- Round-half-up fixed-point rounding to one decimal place over `ℚ`.
This idealizes the handlers' `parseFloat(x.toFixed(1))` over the exact
rationals; at values that are exactly representable with one decimal
digit (all values used in the theorems below) the two agree.  Whether
the idealization matches `toFixed` on every IEEE-754 double is a
floating-point question outside this embedding. -/
def round1 (q : ℚ) : ℚ := (⌊q * 10 + 1 / 2⌋ : ℚ) / 10

/-- The accumulator threaded through the `snapshot.forEach` loop of
`getCourseStats` (`functions/index.js` lines 310-334). -/
structure StatsAcc where
  totalRating : Int
  totalDifficulty : Int
  totalWorkload : Int
  totalProfHelpfulness : Int
  difficultyCount : Nat
  workloadCount : Nat
  profHelpfulnessCount : Nat
deriving DecidableEq, Repr

/-- One iteration of the `forEach` loop of `getCourseStats`: add the
rating, and for each optional submetric add it and bump its count when
the stored field is truthy (`if (data.difficultyRating)` etc.). -/
def statsStep (acc : StatsAcc) (r : Review) : StatsAcc :=
  { totalRating := acc.totalRating + r.rating
    totalDifficulty :=
      if jsTruthyInt r.difficultyRating then acc.totalDifficulty + r.difficultyRating.getD 0
      else acc.totalDifficulty
    totalWorkload :=
      if jsTruthyInt r.workloadRating then acc.totalWorkload + r.workloadRating.getD 0
      else acc.totalWorkload
    totalProfHelpfulness :=
      if jsTruthyInt r.profHelpfulnessRating then
        acc.totalProfHelpfulness + r.profHelpfulnessRating.getD 0
      else acc.totalProfHelpfulness
    difficultyCount :=
      if jsTruthyInt r.difficultyRating then acc.difficultyCount + 1 else acc.difficultyCount
    workloadCount :=
      if jsTruthyInt r.workloadRating then acc.workloadCount + 1 else acc.workloadCount
    profHelpfulnessCount :=
      if jsTruthyInt r.profHelpfulnessRating then acc.profHelpfulnessCount + 1
      else acc.profHelpfulnessCount }

/-- The response body of the `getCourseStats` handler (without the
echoed `courseCode`). -/
structure CourseStats where
  totalReviews : Nat
  averageRating : ℚ
  averageDifficulty : ℚ
  averageWorkload : ℚ
  averageProfHelpfulness : ℚ
deriving DecidableEq, Repr

/-- The `getCourseStats` handler (`functions/index.js` lines 293-351)
applied to the reviews fetched for one course: on an empty snapshot it
returns all-zero statistics; otherwise it folds the `forEach` loop and
divides each total by its own count, each submetric guarded by the
truthiness of its count (`difficultyCount ? ... : 0`). -/
def getCourseStats (reviews : List Review) : CourseStats :=
  if reviews.isEmpty then
    { totalReviews := 0, averageRating := 0, averageDifficulty := 0,
      averageWorkload := 0, averageProfHelpfulness := 0 }
  else
    let acc := reviews.foldl statsStep ⟨0, 0, 0, 0, 0, 0, 0⟩
    let totalReviews := reviews.length
    { totalReviews := totalReviews
      averageRating := round1 ((acc.totalRating : ℚ) / (totalReviews : ℚ))
      averageDifficulty :=
        if acc.difficultyCount ≠ 0 then
          round1 ((acc.totalDifficulty : ℚ) / (acc.difficultyCount : ℚ))
        else 0
      averageWorkload :=
        if acc.workloadCount ≠ 0 then
          round1 ((acc.totalWorkload : ℚ) / (acc.workloadCount : ℚ))
        else 0
      averageProfHelpfulness :=
        if acc.profHelpfulnessCount ≠ 0 then
          round1 ((acc.totalProfHelpfulness : ℚ) / (acc.profHelpfulnessCount : ℚ))
        else 0 }

/-- The aggregate part of the `getReviews` handler
(`functions/index.js` lines 36-62): empty snapshot yields
`averageRating = 0, totalReviews = 0`; otherwise the mean rating
rounded to one decimal. -/
def getReviewsAgg (reviews : List Review) : ℚ × Nat :=
  if reviews.isEmpty then (0, 0)
  else
    let totalRating := (reviews.map (·.rating)).sum
    (round1 ((totalRating : ℚ) / (reviews.length : ℚ)), reviews.length)

/-- The aggregate part of the client `getReviewsByCourse`
(`reviews.length > 0 ? totalRating / reviews.length : 0`, then
`parseFloat(averageRating.toFixed(1))`). -/
def getReviewsByCourseAgg (reviews : List Review) : ℚ × Nat :=
  let totalRating := (reviews.map (·.rating)).sum
  let averageRating : ℚ :=
    if reviews.length > 0 then (totalRating : ℚ) / (reviews.length : ℚ) else 0
  (round1 averageRating, reviews.length)

/-- Specification-side statistics, written from the words of the spec
(aggregation contract): each submetric average is the mean over only
the reviews where that field is present (non-null), the divisor being
the count of reviews supplying the field, `0` when no review supplies
it; the overall average is the mean of `rating`, `0` on the empty set;
all rounded to one decimal place. -/
def statsSpec (reviews : List Review) : CourseStats :=
  let ratings := reviews.map (·.rating)
  let diffs := reviews.filterMap (·.difficultyRating)
  let works := reviews.filterMap (·.workloadRating)
  let profs := reviews.filterMap (·.profHelpfulnessRating)
  let avg : List Int → ℚ := fun xs =>
    if xs.length = 0 then 0 else round1 ((xs.sum : ℚ) / (xs.length : ℚ))
  { totalReviews := reviews.length
    averageRating := avg ratings
    averageDifficulty := avg diffs
    averageWorkload := avg works
    averageProfHelpfulness := avg profs }

/-- A persisted review is well formed when no optional submetric holds
the stored value `0`: both normalizers store `null` instead of `0`
(server: `x ? parseInt(x) : null`; client: `x || null`), so every
review that reaches the store satisfies this. -/
def wfReview (r : Review) : Prop :=
  r.difficultyRating ≠ some 0 ∧ r.workloadRating ≠ some 0 ∧ r.profHelpfulnessRating ≠ some 0

instance (r : Review) : Decidable (wfReview r) := by
  unfold wfReview; infer_instance

/-- The review store, embedded as an association list from document id
to document.  Ids are generated fresh by the store on insert. -/
abbrev Store : Type := List (Nat × Review)

/-- Fetch a document by id (`db.collection("reviews").doc(id).get()`):
the first binding of the id, `none` when no document has the id. -/
def findReview : Store → Nat → Option Review
  | [], _ => none
  | p :: tl, id => if p.1 = id then some p.2 else findReview tl id

/-- Replace the document stored under an id, leaving every other
binding unchanged. -/
def updateStore (st : Store) (id : Nat) (r : Review) : Store :=
  List.map (fun p => if p.1 = id then (p.1, r) else p) st

/-- Failure outcome of the vote and report operations: the handler's
404 `Review not found` response. -/
inductive StoreError where
  | notFound
deriving DecidableEq, Repr

/-- The `upvoteReview` handler (`functions/index.js` lines 198-219)
after id extraction: 404 when the document does not exist, otherwise
increment `helpfulVotes` and `totalVotes` by 1, refresh `updatedAt`,
and return the updated counters. -/
def upvoteReviewOp (st : Store) (id : Nat) (now : Nat) :
    Except StoreError (Store × Nat × Nat) :=
  match findReview st id with
  | none => .error .notFound
  | some r =>
    let r2 := { r with
      helpfulVotes := r.helpfulVotes + 1
      totalVotes := r.totalVotes + 1
      updatedAt := now }
    .ok (updateStore st id r2, r2.helpfulVotes, r2.totalVotes)

/-- The `reportReview` handler (`functions/index.js` lines 249-265)
after id extraction: 404 when the document does not exist, otherwise
increment `reportedCount` by 1 and refresh `updatedAt`. -/
def reportReviewOp (st : Store) (id : Nat) (now : Nat) : Except StoreError Store :=
  match findReview st id with
  | none => .error .notFound
  | some r =>
    .ok (updateStore st id { r with reportedCount := r.reportedCount + 1, updatedAt := now })

/-- The client `upvoteReview` calls the store primitive `updateDoc`
with two `increment(1)` fields and no existence check of its own.
Modelled from the spec: the store adapter's atomic-increment primitive
(Firestore `updateDoc`) fails on a nonexistent document and changes
nothing.  With that contract the client operation coincides with the
server one except for the returned payload. -/
def clientUpvoteReview (st : Store) (id : Nat) (now : Nat) : Except StoreError Store :=
  match findReview st id with
  | none => .error .notFound
  | some r =>
    .ok (updateStore st id { r with
      helpfulVotes := r.helpfulVotes + 1
      totalVotes := r.totalVotes + 1
      updatedAt := now })

/-- The client `reportReview`, likewise delegating its not-found
behaviour to the `updateDoc` store primitive. -/
def clientReportReview (st : Store) (id : Nat) (now : Nat) : Except StoreError Store :=
  match findReview st id with
  | none => .error .notFound
  | some r =>
    .ok (updateStore st id { r with reportedCount := r.reportedCount + 1, updatedAt := now })

/-- The stores reachable through the service: starting from the empty
collection, a step either persists a validated submission under a
fresh id (`submitReview`), applies a successful upvote, or applies a
successful report. -/
inductive Reachable : Store → Prop where
  | empty : Reachable []
  | submit (st : Store) (s : RawSubmission) (now id : Nat) (h : Reachable st)
      (hv : validateServer s = none) (hid : findReview st id = none) :
      Reachable ((id, normalizeServer s now) :: st)
  | upvote (st st2 : Store) (id now : Nat) (hv tv : Nat) (h : Reachable st)
      (hop : upvoteReviewOp st id now = .ok (st2, hv, tv)) : Reachable st2
  | report (st st2 : Store) (id now : Nat) (h : Reachable st)
      (hop : reportReviewOp st id now = .ok st2) : Reachable st2

/-- Specification-side first-error-wins validation, written from the
words of the spec for comparison with the handlers: evaluate the rules
in the fixed order courseCode (non-empty), rating (in [1,5]),
reviewText (trimmed length at least 20), and return the error kind of
the first failing rule, or `none` when all pass. -/
def firstErrorSpec (s : RawSubmission) : Option SubmitError :=
  if ¬ jsTruthyStr s.courseCode then some .missingCourseCode
  else if ¬ (1 ≤ s.rating.getD 0 ∧ s.rating.getD 0 ≤ 5) then some .invalidRating
  else if (jsTrim (s.reviewText.getD "")).length < 20 then some .invalidReviewText
  else none

/-- The store as seen after a request to the server `upvoteReview`
handler: unchanged when the handler answers 404, else the updated
store. -/
def storeAfterUpvote (st : Store) (id now : Nat) : Store :=
  match upvoteReviewOp st id now with
  | .error _ => st
  | .ok (st2, _, _) => st2

/-- The store as seen after a request to the server `reportReview`
handler: unchanged when the handler answers 404, else the updated
store. -/
def storeAfterReport (st : Store) (id now : Nat) : Store :=
  match reportReviewOp st id now with
  | .error _ => st
  | .ok st2 => st2

/-- The store after the client `upvoteReview`: unchanged when the
store primitive fails, else updated. -/
def storeAfterClientUpvote (st : Store) (id now : Nat) : Store :=
  match clientUpvoteReview st id now with
  | .error _ => st
  | .ok st2 => st2

/-- The store after the client `reportReview`: unchanged when the
store primitive fails, else updated. -/
def storeAfterClientReport (st : Store) (id now : Nat) : Store :=
  match clientReportReview st id now with
  | .error _ => st
  | .ok st2 => st2

/-- A submission that passes every validation rule (rating 4, review
text of trimmed length 49). -/
def subOK : RawSubmission :=
  { courseCode := some "CASCS131", rating := some 4,
    reviewText := some "The lectures were clear and the homework was fair" }

/-- An accepted submission that leaves `isAnonymous` unspecified while
supplying an author name and email. -/
def c1Sub : RawSubmission :=
  { subOK with authorName := some "Bob Jones", authorEmail := some "bob@bu.edu" }

/-- A submission whose review text has raw length 20 but trimmed
length 10 (ten letters followed by ten spaces). -/
def c2Sub : RawSubmission :=
  { courseCode := some "CASCS131", rating := some 3,
    reviewText := some "aaaaaaaaaa          " }

/-- An otherwise valid submission carrying the out-of-range optional
rating `difficultyRating = 7`. -/
def c3Sub : RawSubmission := { subOK with difficultyRating := some 7 }

/-- A submission with a valid course code, the out-of-range rating 7,
and an empty review text. -/
def c4Sub : RawSubmission :=
  { courseCode := some "CASCS131", rating := some 7, reviewText := some "" }

/-- Three persisted reviews with ratings 5, 4, 3, of which the first
two supply `difficultyRating` 4 and 2. -/
def c5Reviews : List Review :=
  [ normalizeServer { subOK with rating := some 5, difficultyRating := some 4 } 0,
    normalizeServer { subOK with rating := some 4, difficultyRating := some 2 } 0,
    normalizeServer { subOK with rating := some 3 } 0 ]

/-- The submission `s` with its three optional ratings replaced. -/
def withOpts (s : RawSubmission) (d w p : Option Int) : RawSubmission :=
  { s with difficultyRating := d, workloadRating := w, profHelpfulnessRating := p }

/-- A valid submission with the out-of-range rating 9. -/
def c2WSub : RawSubmission := { subOK with rating := some 9 }

/-- The review `r` after a helpful vote: `helpfulVotes` and
`totalVotes` incremented by 1 and `updatedAt` refreshed, as in the
`upvoteReview` update. -/
def bumpVotes (r : Review) (now : Nat) : Review :=
  { r with
    helpfulVotes := r.helpfulVotes + 1
    totalVotes := r.totalVotes + 1
    updatedAt := now }

/-- The review `r` after a report: `reportedCount` incremented by 1
and `updatedAt` refreshed, as in the `reportReview` update. -/
def bumpReport (r : Review) (now : Nat) : Review :=
  { r with reportedCount := r.reportedCount + 1, updatedAt := now }

theorem jsTruthyInt_eq_false (o : Option Int) : jsTruthyInt o = false ↔ o.getD 0 = 0 := by
  cases o <;> simp [jsTruthyInt]

theorem jsTruthyStr_eq_false (o : Option String) : jsTruthyStr o = false ↔ o.getD "" = "" := by
  cases o <;> simp [jsTruthyStr]

theorem jsTruthyInt_eq_isSome (o : Option Int) (h : o ≠ some 0) :
    jsTruthyInt o = o.isSome := by
  cases o with
  | none => simp [jsTruthyInt]
  | some v =>
    have hv : v ≠ 0 := fun hv0 => h (by rw [hv0])
    simp [jsTruthyInt, hv]

theorem jsTrim_empty : jsTrim "" = "" := rfl

theorem statsFoldl (rs : List Review) (hwf : ∀ r ∈ rs, wfReview r) (acc : StatsAcc) :
    rs.foldl statsStep acc =
      { totalRating := acc.totalRating + (rs.map (fun r => r.rating)).sum,
        totalDifficulty :=
          acc.totalDifficulty + (rs.filterMap (fun r => r.difficultyRating)).sum,
        totalWorkload := acc.totalWorkload + (rs.filterMap (fun r => r.workloadRating)).sum,
        totalProfHelpfulness :=
          acc.totalProfHelpfulness + (rs.filterMap (fun r => r.profHelpfulnessRating)).sum,
        difficultyCount :=
          acc.difficultyCount + (rs.filterMap (fun r => r.difficultyRating)).length,
        workloadCount := acc.workloadCount + (rs.filterMap (fun r => r.workloadRating)).length,
        profHelpfulnessCount :=
          acc.profHelpfulnessCount + (rs.filterMap (fun r => r.profHelpfulnessRating)).length } := by
  induction rs generalizing acc with
  | nil => simp
  | cons r tl ih =>
    have hr := hwf r (List.mem_cons_self r tl)
    have htl : ∀ x ∈ tl, wfReview x := fun x hx => hwf x (List.mem_cons_of_mem r hx)
    obtain ⟨h1, h2, h3⟩ := hr
    rw [List.foldl_cons, ih htl]
    rcases hd : r.difficultyRating with _ | d <;>
      rcases hw : r.workloadRating with _ | w <;>
      rcases hp : r.profHelpfulnessRating with _ | p <;>
      · rw [hd] at h1; rw [hw] at h2; rw [hp] at h3
        simp only [ne_eq, Option.some.injEq] at h1 h2 h3
        simp [statsStep, jsTruthyInt, hd, hw, hp, List.filterMap_cons,
          StatsAcc.mk.injEq, h1, h2, h3]
        all_goals omega

theorem findReview_mem (st : Store) (id : Nat) (r : Review) (h : findReview st id = some r) :
    ∃ p ∈ st, p.2 = r := by
  induction st with
  | nil => simp [findReview] at h
  | cons p tl ih =>
    by_cases hid : p.1 = id
    · rw [findReview, if_pos hid] at h
      exact ⟨p, List.mem_cons_self p tl, by simpa using h⟩
    · rw [findReview, if_neg hid] at h
      rcases ih h with ⟨q, hq, hqr⟩
      exact ⟨q, List.mem_cons_of_mem p hq, hqr⟩

theorem mem_updateStore (st : Store) (id : Nat) (r2 : Review) (q : Nat × Review)
    (h : q ∈ updateStore st id r2) : q.2 = r2 ∨ q ∈ st := by
  unfold updateStore at h
  rcases List.mem_map.mp h with ⟨p, hp, hq⟩
  by_cases hid : p.1 = id
  · left; rw [if_pos hid] at hq; rw [← hq]
  · right; rw [if_neg hid] at hq; rw [← hq]; exact hp

theorem findReview_updateStore_self (st : Store) (id : Nat) (r r2 : Review)
    (h : findReview st id = some r) :
    findReview (updateStore st id r2) id = some r2 := by
  induction st with
  | nil => simp [findReview] at h
  | cons p tl ih =>
    unfold updateStore at *
    by_cases hid : p.1 = id
    · simp [findReview, if_pos hid, hid]
    · rw [findReview, if_neg hid] at h
      simp only [List.map_cons, if_neg hid]
      rw [findReview, if_neg hid]
      exact ih h

theorem findReview_updateStore_other (st : Store) (id i : Nat) (r2 : Review) (hne : i ≠ id) :
    findReview (updateStore st id r2) i = findReview st i := by
  induction st with
  | nil => rfl
  | cons p tl ih =>
    unfold updateStore at *
    simp only [List.map_cons]
    by_cases hpid : p.1 = id
    · have h1 : ¬ p.1 = i := by omega
      rw [if_pos hpid, findReview, findReview, if_neg h1, if_neg h1]
      exact ih
    · rw [if_neg hpid, findReview, findReview]
      by_cases hpi : p.1 = i
      · rw [if_pos hpi, if_pos hpi]
      · rw [if_neg hpi, if_neg hpi]
        exact ih

theorem reachable_invariant (st : Store) (h : Reachable st) :
    ∀ p ∈ st, p.2.helpfulVotes ≤ p.2.totalVotes := by
  induction h with
  | empty => intro p hp; exact absurd hp (List.not_mem_nil p)
  | submit st s now id h hv hid ih =>
    intro p hp
    rcases List.mem_cons.mp hp with hp1 | hp2
    · rw [hp1]
      simp [normalizeServer]
    · exact ih p hp2
  | upvote st st2 id now hv tv h hop ih =>
    intro p hp
    unfold upvoteReviewOp at hop
    cases hf : findReview st id with
    | none => rw [hf] at hop; exact absurd hop (by simp)
    | some r =>
      rw [hf] at hop
      simp only [Except.ok.injEq, Prod.mk.injEq] at hop
      obtain ⟨hst2, _, _⟩ := hop
      rw [← hst2] at hp
      rcases mem_updateStore st id _ p hp with hq | hq
      · rw [hq]
        rcases findReview_mem st id r hf with ⟨q, hq2, hq3⟩
        have hr := ih q hq2
        rw [hq3] at hr
        simpa using Nat.succ_le_succ hr
      · exact ih p hq
  | report st st2 id now h hop ih =>
    intro p hp
    unfold reportReviewOp at hop
    cases hf : findReview st id with
    | none => rw [hf] at hop; exact absurd hop (by simp)
    | some r =>
      rw [hf] at hop
      simp only [Except.ok.injEq] at hop
      rw [← hop] at hp
      rcases mem_updateStore st id _ p hp with hq | hq
      · rw [hq]
        rcases findReview_mem st id r hf with ⟨q, hq2, hq3⟩
        have hr := ih q hq2
        rw [hq3] at hr
        simpa using hr
      · exact ih p hq

theorem ite_ne_zero_swap (n : Nat) (a : ℚ) :
    (if n ≠ 0 then a else 0) = (if n = 0 then 0 else a) := by
  by_cases h : n = 0 <;> simp [h]

/-- Claim C1: for every submission with `isAnonymous = true` (including
the unspecified case, whose stored default is `true`), the persisted
record has `authorName = "Anonymous"` and `authorEmail` absent.  The
server handler violates this: on the concrete accepted submission
`c1Sub`, which leaves `isAnonymous` unspecified, the persisted record
has `isAnonymous = true` yet carries the caller-supplied author name
and email, because the redaction branches on the truthiness of the raw
flag while the stored flag uses `!== false`. -/
theorem c1_anonymity_leak :
    validateServer c1Sub = none ∧
      c1Sub.isAnonymous = none ∧
      (normalizeServer c1Sub 7).isAnonymous = true ∧
      (normalizeServer c1Sub 7).authorName = "Bob Jones" ∧
      (normalizeServer c1Sub 7).authorEmail = some "bob@bu.edu" := by
  decide

/-- Claim C7: aggregation over the empty set of reviews yields
`averageRating = 0`, `totalReviews = 0` and every submetric average
`0`, in the stats handler, the server reviews handler and the client
fetch. -/
theorem c7_empty_aggregation :
    getCourseStats [] =
      { totalReviews := 0, averageRating := 0, averageDifficulty := 0,
        averageWorkload := 0, averageProfHelpfulness := 0 } ∧
      getReviewsAgg [] = (0, 0) ∧ getReviewsByCourseAgg [] = (0, 0) := by
  refine ⟨rfl, rfl, ?_⟩
  simp [getReviewsByCourseAgg, round1]
  norm_num

/-- Claim C8: for every review id not present in the store, the server
`upvoteReview` and `reportReview` handlers and the client operations
fail with not-found and leave the store unchanged. -/
theorem c8_not_found (st : Store) (id now : Nat) (h : findReview st id = none) :
    upvoteReviewOp st id now = .error .notFound ∧
      reportReviewOp st id now = .error .notFound ∧
      clientUpvoteReview st id now = .error .notFound ∧
      clientReportReview st id now = .error .notFound ∧
      storeAfterUpvote st id now = st ∧ storeAfterReport st id now = st ∧
      storeAfterClientUpvote st id now = st ∧ storeAfterClientReport st id now = st := by
  unfold storeAfterUpvote storeAfterReport storeAfterClientUpvote storeAfterClientReport
    upvoteReviewOp reportReviewOp clientUpvoteReview clientReportReview
  rw [h]
  exact ⟨rfl, rfl, rfl, rfl, rfl, rfl, rfl, rfl⟩

theorem c8_witness :
    findReview ([] : Store) 3 = none ∧
      (upvoteReviewOp [] 3 0 = .error .notFound ∧
        reportReviewOp [] 3 0 = .error .notFound ∧
        clientUpvoteReview [] 3 0 = .error .notFound ∧
        clientReportReview [] 3 0 = .error .notFound ∧
        storeAfterUpvote [] 3 0 = [] ∧ storeAfterReport [] 3 0 = [] ∧
        storeAfterClientUpvote [] 3 0 = [] ∧ storeAfterClientReport [] 3 0 = []) :=
  ⟨rfl, c8_not_found [] 3 0 rfl⟩

/-- Claim C10: a submission supplying `0` for an optional rating is
treated exactly like one not supplying it: validation is unaffected on
both server and client, and the normalized record equals the one of
the submission with the field absent (so the field is persisted as
null, indistinguishable from "never provided"). -/
theorem c10_zero_optional_rating (s : RawSubmission) (now : Nat) :
    (validateServer (withOpts s (some 0) s.workloadRating s.profHelpfulnessRating) =
        validateServer s ∧
      validateClient (withOpts s (some 0) s.workloadRating s.profHelpfulnessRating) =
        validateClient s ∧
      normalizeServer (withOpts s (some 0) s.workloadRating s.profHelpfulnessRating) now =
        normalizeServer (withOpts s none s.workloadRating s.profHelpfulnessRating) now ∧
      normalizeClient (withOpts s (some 0) s.workloadRating s.profHelpfulnessRating) now =
        normalizeClient (withOpts s none s.workloadRating s.profHelpfulnessRating) now) ∧
    (validateServer (withOpts s s.difficultyRating (some 0) s.profHelpfulnessRating) =
        validateServer s ∧
      validateClient (withOpts s s.difficultyRating (some 0) s.profHelpfulnessRating) =
        validateClient s ∧
      normalizeServer (withOpts s s.difficultyRating (some 0) s.profHelpfulnessRating) now =
        normalizeServer (withOpts s s.difficultyRating none s.profHelpfulnessRating) now ∧
      normalizeClient (withOpts s s.difficultyRating (some 0) s.profHelpfulnessRating) now =
        normalizeClient (withOpts s s.difficultyRating none s.profHelpfulnessRating) now) ∧
    (validateServer (withOpts s s.difficultyRating s.workloadRating (some 0)) =
        validateServer s ∧
      validateClient (withOpts s s.difficultyRating s.workloadRating (some 0)) =
        validateClient s ∧
      normalizeServer (withOpts s s.difficultyRating s.workloadRating (some 0)) now =
        normalizeServer (withOpts s s.difficultyRating s.workloadRating none) now ∧
      normalizeClient (withOpts s s.difficultyRating s.workloadRating (some 0)) now =
        normalizeClient (withOpts s s.difficultyRating s.workloadRating none) now) :=
  ⟨⟨rfl, rfl, rfl, rfl⟩, ⟨rfl, rfl, rfl, rfl⟩, ⟨rfl, rfl, rfl, rfl⟩⟩

/-- Claim C3, counterexample: the claim says a present out-of-range
optional rating is rejected, but no handler validates optional
ratings: the submission `c3Sub` with `difficultyRating = 7` is
accepted by both validations and the out-of-range value is persisted
unchanged. -/
theorem c3_counterexample :
    validateServer c3Sub = none ∧ validateClient c3Sub = none ∧
      (normalizeServer c3Sub 0).difficultyRating = some 7 ∧
      (normalizeClient c3Sub 0).difficultyRating = some 7 := by
  decide

/-- Claim C3, amended: optional ratings are never range-checked —
changing them never changes either validation outcome — while an
absent optional rating is persisted as null by both normalizers
(absence is always valid). -/
theorem c3_amended :
    (∀ (s : RawSubmission) (d w p : Option Int),
        validateServer (withOpts s d w p) = validateServer s ∧
        validateClient (withOpts s d w p) = validateClient s) ∧
    (∀ (s : RawSubmission) (now : Nat), s.difficultyRating = none →
        (normalizeServer s now).difficultyRating = none ∧
        (normalizeClient s now).difficultyRating = none) ∧
    (∀ (s : RawSubmission) (now : Nat), s.workloadRating = none →
        (normalizeServer s now).workloadRating = none ∧
        (normalizeClient s now).workloadRating = none) ∧
    (∀ (s : RawSubmission) (now : Nat), s.profHelpfulnessRating = none →
        (normalizeServer s now).profHelpfulnessRating = none ∧
        (normalizeClient s now).profHelpfulnessRating = none) := by
  refine ⟨fun s d w p => ⟨rfl, rfl⟩, ?_, ?_, ?_⟩ <;>
    · intro s now h
      constructor <;> simp [normalizeServer, normalizeClient, jsTruthyInt, h]

theorem c3_witness :
    subOK.difficultyRating = none ∧
      ((normalizeServer subOK 0).difficultyRating = none ∧
        (normalizeClient subOK 0).difficultyRating = none) :=
  ⟨rfl, c3_amended.2.1 subOK 0 rfl⟩

/-- Claim C5: each submetric average of `getCourseStats` is the mean
over only the reviews where that field is present, the divisor being
the count of reviews supplying the field (not `totalReviews`), and `0`
when no review supplies it; in particular ratings `[5, 4, 3]` give
`averageRating = 4.0` and difficulty values `[4, 2]` among them give
`averageDifficulty = 3.0`.  Stated as a refinement: on well-formed
stores (no stored submetric `0`, which both normalizers guarantee) the
handler equals the specification-side `statsSpec`, and the concrete
example evaluates as the claim says. -/
theorem c5_submetric_averages :
    (∀ rs : List Review, (∀ r ∈ rs, wfReview r) → getCourseStats rs = statsSpec rs) ∧
      getCourseStats c5Reviews =
        { totalReviews := 3, averageRating := 4, averageDifficulty := 3,
          averageWorkload := 0, averageProfHelpfulness := 0 } := by
  constructor
  · intro rs hwf
    cases rs with
    | nil => simp [getCourseStats, statsSpec]
    | cons r tl =>
      rw [getCourseStats, statsSpec, if_neg (by simp), statsFoldl (r :: tl) hwf]
      simp only [zero_add, ite_ne_zero_swap]
      simp
  · simp [c5Reviews, getCourseStats, statsStep, normalizeServer, subOK, jsTruthyInt, round1]
    norm_num

theorem c5_witness :
    (∀ r ∈ c5Reviews, wfReview r) ∧ getCourseStats c5Reviews = statsSpec c5Reviews :=
  ⟨by decide, c5_submetric_averages.1 c5Reviews (by decide)⟩

/-- Claim C9: a successful `markHelpful` (`upvoteReview`) increments
`helpfulVotes` and `totalVotes` by exactly 1 and returns the bumped
counters; both counters start at 0 on every normalized submission;
`reportReview` changes neither counter of any stored review; and in
every reachable store `helpfulVotes ≤ totalVotes` holds for every
stored review. -/
theorem c9_vote_monotonicity :
    (∀ (st : Store) (id now : Nat) (r : Review), findReview st id = some r →
        upvoteReviewOp st id now =
          .ok (storeAfterUpvote st id now, r.helpfulVotes + 1, r.totalVotes + 1) ∧
        findReview (storeAfterUpvote st id now) id = some (bumpVotes r now)) ∧
    (∀ (s : RawSubmission) (now : Nat),
        (normalizeServer s now).helpfulVotes = 0 ∧ (normalizeServer s now).totalVotes = 0 ∧
        (normalizeClient s now).helpfulVotes = 0 ∧ (normalizeClient s now).totalVotes = 0) ∧
    (∀ (st : Store) (id now i : Nat),
        (findReview (storeAfterReport st id now) i).map
            (fun r => (r.helpfulVotes, r.totalVotes)) =
          (findReview st i).map (fun r => (r.helpfulVotes, r.totalVotes))) ∧
    (∀ st : Store, Reachable st → ∀ p ∈ st, p.2.helpfulVotes ≤ p.2.totalVotes) := by
  refine ⟨?_, fun s now => ⟨rfl, rfl, rfl, rfl⟩, ?_, reachable_invariant⟩
  · intro st id now r hf
    have hop : upvoteReviewOp st id now =
        .ok (updateStore st id (bumpVotes r now), r.helpfulVotes + 1, r.totalVotes + 1) := by
      unfold upvoteReviewOp bumpVotes
      rw [hf]
    have hsa : storeAfterUpvote st id now = updateStore st id (bumpVotes r now) := by
      unfold storeAfterUpvote
      rw [hop]
    constructor
    · rw [hop, hsa]
    · rw [hsa]
      exact findReview_updateStore_self st id r _ hf
  · intro st id now i
    cases hf : findReview st id with
    | none =>
      have hop : reportReviewOp st id now = .error .notFound := by
        unfold reportReviewOp
        rw [hf]
      unfold storeAfterReport
      rw [hop]
    | some r =>
      have hop : reportReviewOp st id now = .ok (updateStore st id (bumpReport r now)) := by
        unfold reportReviewOp bumpReport
        rw [hf]
      unfold storeAfterReport
      rw [hop]
      by_cases hi : i = id
      · subst hi
        rw [findReview_updateStore_self st i r (bumpReport r now) hf, hf]
        rfl
      · rw [findReview_updateStore_other st id i _ hi]

theorem c9_witness :
    (findReview [(7, normalizeServer subOK 0)] 7 = some (normalizeServer subOK 0) ∧
      upvoteReviewOp [(7, normalizeServer subOK 0)] 7 1 =
        .ok (storeAfterUpvote [(7, normalizeServer subOK 0)] 7 1,
          (normalizeServer subOK 0).helpfulVotes + 1,
          (normalizeServer subOK 0).totalVotes + 1)) ∧
    Reachable [(7, normalizeServer subOK 0)] ∧
      (normalizeServer subOK 0).helpfulVotes ≤ (normalizeServer subOK 0).totalVotes := by
  have hf : findReview [(7, normalizeServer subOK 0)] 7 = some (normalizeServer subOK 0) := rfl
  have hr : Reachable [(7, normalizeServer subOK 0)] :=
    Reachable.submit [] subOK 0 7 Reachable.empty (by decide) rfl
  exact ⟨⟨hf, (c9_vote_monotonicity.1 [(7, normalizeServer subOK 0)] 7 1
      (normalizeServer subOK 0) hf).1⟩,
    hr, c9_vote_monotonicity.2.2.2 [(7, normalizeServer subOK 0)] hr
      (7, normalizeServer subOK 0) (by simp)⟩

theorem ratingRuleIff (o : Option Int) :
    (¬ jsTruthyInt o = true ∨ o.getD 0 < 1 ∨ o.getD 0 > 5) ↔
      ¬ (1 ≤ o.getD 0 ∧ o.getD 0 ≤ 5) := by
  cases o with
  | none => simp [jsTruthyInt]
  | some v =>
    simp only [jsTruthyInt, Option.getD_some]
    constructor
    · intro h
      rcases h with h | h | h
      · simp at h
        omega
      · omega
      · omega
    · intro h
      by_cases hv : v = 0
      · left; simp [hv]
      · right; omega

theorem textRuleIff (o : Option String) :
    (¬ jsTruthyStr o = true ∨ (jsTrim (o.getD "")).length < 20) ↔
      (jsTrim (o.getD "")).length < 20 := by
  constructor
  · intro h
    rcases h with h | h
    · have he : o.getD "" = "" := by
        rcases (jsTruthyStr_eq_false o) with ⟨h1, _⟩
        exact h1 (by simpa using h)
      rw [he]
      simp [jsTrim_empty]
    · exact h
  · intro h
    right
    exact h

/-- Claim C4, counterexample: on the submission `c4Sub` (valid course
code, out-of-range rating 7, empty review text) the first failing rule
in the order courseCode, rating, reviewText is the rating rule, but
the client service returns its combined missing-fields error instead,
because its first check treats the empty review text as missing. -/
theorem c4_counterexample :
    firstErrorSpec c4Sub = some SubmitError.invalidRating ∧
      validateClient c4Sub = some SubmitError.missingRequiredFields ∧
      validateClient c4Sub ≠ firstErrorSpec c4Sub := by
  decide

/-- Claim C4, amended: the server handler does return the error kind of
the first failing rule in the fixed order courseCode, rating,
reviewText (it refines the specification-side `firstErrorSpec`); the
client service deviates as shown by the counterexample. -/
theorem c4_first_error_wins (s : RawSubmission) : validateServer s = firstErrorSpec s := by
  unfold validateServer firstErrorSpec
  simp only [ratingRuleIff, textRuleIff]

/-- Claim C2, counterexample: the claim requires rejection whenever the
trimmed review text is shorter than 20 characters, but the client
service checks the raw length: the submission `c2Sub`, whose review
text has raw length 20 and trimmed length 10, is accepted by the
client validation. -/
theorem c2_counterexample :
    validateClient c2Sub = none ∧ (jsTrim (c2Sub.reviewText.getD "")).length < 20 := by
  decide

/-- Claim C2, amended: the server handler accepts exactly when the
course code is truthy, the rating is in [1,5] and the trimmed review
text has length at least 20, rejecting with `invalidRating` and
`invalidReviewText` for the corresponding rule; the client service
accepts exactly under the same conditions except that the raw,
untrimmed review text length is compared with 20. -/
theorem c2_validation_ranges :
    (∀ s : RawSubmission, validateServer s = none ↔
      (jsTruthyStr s.courseCode = true ∧ 1 ≤ s.rating.getD 0 ∧ s.rating.getD 0 ≤ 5 ∧
        20 ≤ (jsTrim (s.reviewText.getD "")).length)) ∧
    (∀ s : RawSubmission, jsTruthyStr s.courseCode = true →
      (s.rating.getD 0 < 1 ∨ 5 < s.rating.getD 0) →
      validateServer s = some SubmitError.invalidRating) ∧
    (∀ s : RawSubmission, jsTruthyStr s.courseCode = true →
      1 ≤ s.rating.getD 0 → s.rating.getD 0 ≤ 5 →
      (jsTrim (s.reviewText.getD "")).length < 20 →
      validateServer s = some SubmitError.invalidReviewText) ∧
    (∀ s : RawSubmission, validateClient s = none ↔
      (jsTruthyStr s.courseCode = true ∧ 1 ≤ s.rating.getD 0 ∧ s.rating.getD 0 ≤ 5 ∧
        20 ≤ (s.reviewText.getD "").length)) := by
  refine ⟨?_, ?_, ?_, ?_⟩
  · intro s
    unfold validateServer
    simp only [ratingRuleIff, textRuleIff]
    split_ifs with h1 h2 h3 <;> simp [h1] <;> omega
  · intro s h1 h2
    unfold validateServer
    simp only [ratingRuleIff]
    rw [if_neg (by simp [h1]), if_pos (by omega)]
  · intro s h1 h2 h3 h4
    unfold validateServer
    simp only [ratingRuleIff, textRuleIff]
    rw [if_neg (by simp [h1]), if_neg (by omega), if_pos h4]
  · intro s
    unfold validateClient
    split_ifs with h1 h2 h3
    · constructor
      · intro h
        exact absurd h (by simp)
      · rintro ⟨hA, hB, hC, hD⟩
        rcases h1 with h | h | h
        · exact h (by simpa using hA)
        · have h0 : s.rating.getD 0 = 0 := (jsTruthyInt_eq_false _).mp (by simpa using h)
          omega
        · have h0 : s.reviewText.getD "" = "" := (jsTruthyStr_eq_false _).mp (by simpa using h)
          rw [h0] at hD
          simp at hD
    all_goals push_neg at h1
    all_goals obtain ⟨hA, hB, hC⟩ := h1
    all_goals simp [hA]
    all_goals omega

theorem c2_witness :
    jsTruthyStr c2WSub.courseCode = true ∧
      (c2WSub.rating.getD 0 < 1 ∨ 5 < c2WSub.rating.getD 0) ∧
      validateServer c2WSub = some SubmitError.invalidRating :=
  ⟨by decide, by decide, c2_validation_ranges.2.1 c2WSub (by decide) (by decide)⟩
